import Mathlib

/-!
Verification of `pr_tool.py` (Blender Pull Request Tool).

The tool is a thin orchestration of shell (`git`) invocations and one HTTP
GET.  We embed it shallowly: every observable action (a process-runner
invocation of a shell command string, a printed line, the HTTP request) is
recorded in an `Effect` trace, and the way the process ends is an `Outcome`
(normal return, `sys.exit code`, or an uncaught Python exception).  The
outputs of the `git` query commands that the tool reads are supplied as an
explicit environment (`GitEnv` / `PruneEnv`), so the flows become pure
functions from their inputs and environment to a trace and an outcome.
-/

namespace PrTool

/-! ## String helpers mirroring the Python string operations used -/

/-- Characters of the Python-style `str.strip()` of a string: whitespace
removed from both ends. -/
def pyStrip (s : String) : String :=
  String.mk (((s.data.dropWhile Char.isWhitespace).reverse.dropWhile
    Char.isWhitespace).reverse)

/-- Model of `b.strip().lstrip('* ')` (source line 69 and line 88): trim
whitespace from both ends, then remove every leading character belonging to
the set `\x7b '*', ' ' \x7d`. -/
def stripMarker (s : String) : String :=
  String.mk ((pyStrip s).data.dropWhile (fun c => c == '*' || c == ' '))

/-- Helper for `tokens`: accumulate the current word (reversed) while
scanning the character list, splitting at whitespace runs. -/
def splitWsAux : List Char → List Char → List String
  | [], acc => if acc.isEmpty then [] else [String.mk acc.reverse]
  | c :: cs, acc =>
    if c.isWhitespace then
      (if acc.isEmpty then [] else [String.mk acc.reverse]) ++ splitWsAux cs []
    else
      splitWsAux cs (c :: acc)

/-- Model of Python `line.split()`: split on whitespace runs, producing no
empty tokens. -/
def tokens (s : String) : List String :=
  splitWsAux s.data []

/-- Model of `line.split()[0]` (source line 98).  Python would raise
`IndexError` on a token-free line, but the call site only reaches this on
lines containing the non-whitespace text `[gone]`, which always have a
first token; the default is therefore never used there. -/
def firstToken (s : String) : String :=
  (tokens s).headD ""

/-- Does the first character list occur as a leading segment of the
second?  Written over `List Char` so that it reduces definitionally even
when only a leading portion of the second list is concrete. -/
def dataStarts : List Char → List Char → Bool
  | [], _ => true
  | _ :: _, [] => false
  | c :: cs, d :: ds => c == d && dataStarts cs ds

/-- String-level wrapper of `dataStarts`. -/
def strStarts (p s : String) : Bool :=
  dataStarts p.data s.data

/-- Helper for `occursIn`: does the first list occur as a contiguous
segment anywhere in the second? -/
def subOf (n : List Char) : List Char → Bool
  | [] => n.isEmpty
  | c :: cs => dataStarts n (c :: cs) || subOf n cs

/-- Model of the Python substring test `needle in hay` (source line 97). -/
def occursIn (needle hay : String) : Bool :=
  subOf needle.data hay.data

/-- Rendering of an optional string inside a Python f-string: `None`
prints as the text `None` (source lines 45 and 46). -/
def pyOptStr : Option String → String
  | some s => s
  | none => "None"

/-! ## Data model

The PR record is the JSON object returned by the forge.  Every field the
tool consumes is optional, matching "the forge's API returned a well-formed
JSON object with these optional fields": an absent key is `none`.
Python distinguishes `.get(key)` access (absent gives `None`) from
`[key]` access (absent raises `KeyError`); `getItem` below models the
latter. -/

/-- The `head.repo.owner` sub-object; the tool reads `username` (line 54). -/
structure PROwner where
  username : Option String
deriving DecidableEq

/-- The `head.repo` sub-object; the tool reads `full_name` (line 53) and
`owner` (line 54). -/
structure PRHeadRepo where
  full_name : Option String
  owner : Option PROwner
deriving DecidableEq

/-- The `head` sub-object; the tool reads `repo` (lines 53 and 54) and
`ref` (line 55). -/
structure PRHead where
  repo : Option PRHeadRepo
  ref : Option String
deriving DecidableEq

/-- The `base` sub-object; the tool reads `ref` (line 56). -/
structure PRBase where
  ref : Option String
deriving DecidableEq

/-- The `merged_by` sub-object; the tool reads `full_name` (line 46). -/
structure PRMergedBy where
  full_name : Option String
deriving DecidableEq

/-- The pull-request record: exactly the fields `checkout_pr` consumes. -/
structure PRData where
  merged : Option Bool
  merged_at : Option String
  merged_by : Option PRMergedBy
  state : Option String
  title : Option String
  head : Option PRHead
  base : Option PRBase
deriving DecidableEq

/-- Outcome of the HTTP GET performed by `fetch_pr_json`: a parsed JSON
record, an `HTTPError` (non-2xx response status, caught at line 36), or a
connection-level failure (`URLError` that is not an `HTTPError`, such as a
refused connection, which the `except HTTPError` clause does not catch). -/
inductive FetchResult
  | ok (pr : PRData)
  | httpError (msg : String)
  | connError (msg : String)
deriving DecidableEq

/-- One observable action of the tool: a process-runner invocation of a
shell command string, a printed line, or the HTTP GET of the PR record. -/
inductive Effect
  | git (cmd : String)
  | print (msg : String)
  | httpGet (url : String)
deriving DecidableEq

/-- How the process ends: function returns normally (process exit code 0
when reached from `main`), `sys.exit code` is called, or a Python
exception propagates uncaught (abnormal termination; CPython then exits
with a nonzero status after printing a traceback, which is not one of the
tool's own prints). -/
inductive Outcome
  | normal
  | exited (code : Nat)
  | uncaught (msg : String)
deriving DecidableEq

/-- Environment read by `checkout_pr`: the results of its two `git` query
commands.  `currentBranch` is the already-stripped stdout of
`git branch --show-current` (the process runner returns
`stdout.strip()`); `branchLines` is the `splitlines()` of the stdout of
`git branch`. -/
structure GitEnv where
  currentBranch : String
  branchLines : List String
deriving DecidableEq

/-- Environment read by `prune_branches`: the `splitlines()` of the stdout
of `git branch --merged`, the stripped stdout of
`git branch --show-current`, and the `splitlines()` of the stdout of
`git branch -vv`. -/
structure PruneEnv where
  mergedLines : List String
  currentBranch : String
  vvLines : List String
deriving DecidableEq

/-! ## Program model -/

/-- URL built by `fetch_pr_json` (source line 31). -/
def apiUrl (owner repo pr_number : String) : String :=
  "https://projects.blender.org/api/v1/repos/" ++ owner ++ "/" ++ repo ++
    "/pulls/" ++ pr_number

/-- The derived local branch name (source line 57). -/
def localBranchName (pr_number author branch : String) : String :=
  "PR/" ++ pr_number ++ "/" ++ author ++ "-" ++ branch

/-- Python bracket access `obj[key]`: an absent key raises
`KeyError(key)`. -/
def getItem {α : Type} (key : String) : Option α → Except String α
  | some a => Except.ok a
  | none => Except.error key

/-- The field values the open-PR path of `checkout_pr` extracts
(source lines 53 to 59). -/
structure OpenFields where
  pr_repo : String
  author : String
  branch : String
  base_branch : String
  title : String
deriving DecidableEq

/-- Bracket-access extraction of the open-PR fields, in the source's
evaluation order: `head`, `head.repo`, `head.repo.full_name` (line 53),
`head.repo.owner`, `...username` (line 54), `head.ref` (line 55),
`base`, `base.ref` (line 56), and `title` (line 59, evaluated inside the
first f-string before anything is printed). -/
def openFields (pr : PRData) : Except String OpenFields := do
  let h ← getItem "head" pr.head
  let hr ← getItem "repo" h.repo
  let fn ← getItem "full_name" hr.full_name
  let ow ← getItem "owner" hr.owner
  let au ← getItem "username" ow.username
  let br ← getItem "ref" h.ref
  let b ← getItem "base" pr.base
  let bb ← getItem "ref" b.ref
  let ti ← getItem "title" pr.title
  Except.ok ⟨fn, au, br, bb, ti⟩

/-- The open-PR tail of `checkout_pr` (source lines 59 to 80), once the
fields have been extracted: banner prints, the conditional checkout of
the base branch (lines 64 to 66), the branch listing with the conditional
refresh force-delete (lines 68 to 74), the create-and-checkout (line 76),
the pull from the author's fork (line 77), and the completion prints. -/
def openTrace (pr_number : String) (f : OpenFields) (env : GitEnv) :
    List Effect :=
  let local_branch := localBranchName pr_number f.author f.branch
  [Effect.print ("\x1b[95mPulling PR #" ++ pr_number ++ ": " ++ f.title ++ "\x1b[0m"),
   Effect.print ("\x1b[90mIncoming branch: " ++ f.pr_repo ++ "\x1b[0m"),
   Effect.print ("\x1b[90mBase branch   : " ++ f.base_branch ++ "\x1b[0m"),
   Effect.print ("\x1b[90mLocal branch  : " ++ local_branch ++ "\x1b[0m"),
   Effect.git "git branch --show-current"]
  ++ (if env.currentBranch ≠ f.base_branch then
       [Effect.git ("git checkout " ++ f.base_branch)] else [])
  ++ [Effect.git "git branch"]
  ++ (if local_branch ∈ env.branchLines.map stripMarker then
       [Effect.print ("\x1b[95mBranch " ++ local_branch ++ " exists, refreshing it.\x1b[0m"),
        Effect.git ("git branch -D " ++ local_branch)]
      else
       [Effect.print ("\x1b[96mBranch " ++ local_branch ++ " does not exist.\x1b[0m")])
  ++ [Effect.git ("git checkout -b " ++ local_branch ++ " " ++ f.base_branch),
      Effect.git ("git pull --no-rebase --ff --no-edit --commit https://projects.blender.org/"
        ++ f.pr_repo ++ " " ++ f.branch),
      Effect.print ("\x1b[95mBranch " ++ local_branch ++ " is ready for use.\x1b[0m"),
      Effect.print ("\x1b[94mPulled PR #" ++ pr_number ++ ": " ++ f.title ++ "\x1b[0m")]

/-- Body of `checkout_pr` after the PR record has been fetched
(source lines 43 to 80).  `pr.merged.getD false` is the Python truthiness
of `pr_data.get('merged')`; the closed test is `== 'closed'` on
`pr_data.get('state')`. -/
def checkoutWithData (pr_number : String) (pr : PRData) (env : GitEnv) :
    List Effect × Outcome :=
  if pr.merged.getD false then
    ([Effect.print ("\x1b[92mPR #" ++ pr_number ++ " is already merged.\x1b[0m"),
      Effect.print ("Merged at: " ++ pyOptStr pr.merged_at),
      Effect.print ("Merged by: " ++ pyOptStr (pr.merged_by.bind PRMergedBy.full_name))],
     Outcome.normal)
  else if pr.state = some "closed" then
    ([Effect.print ("\x1b[91mPR #" ++ pr_number ++ " is closed.\x1b[0m")],
     Outcome.normal)
  else
    match openFields pr with
    | Except.error k => ([], Outcome.uncaught ("KeyError: " ++ k))
    | Except.ok f => (openTrace pr_number f env, Outcome.normal)

/-- The `checkout_pr` flow (source lines 40 to 80), starting with the
`fetch_pr_json` call (lines 30 to 38).  An `HTTPError` is caught: the
colored error is printed and `sys.exit(1)` is called.  A connection-level
`URLError` is not caught by the `except HTTPError` clause and propagates
as an uncaught exception. -/
def checkout_pr (pr_number owner repo : String) (resp : FetchResult)
    (env : GitEnv) : List Effect × Outcome :=
  let fetchEffs := [Effect.httpGet (apiUrl owner repo pr_number)]
  match resp with
  | FetchResult.httpError e =>
      (fetchEffs ++
        [Effect.print ("\x1b[91mError fetching PR data: " ++ e ++ "\x1b[0m")],
       Outcome.exited 1)
  | FetchResult.connError e => (fetchEffs, Outcome.uncaught e)
  | FetchResult.ok pr =>
      let rest := checkoutWithData pr_number pr env
      (fetchEffs ++ rest.1, rest.2)

/-- One iteration of the merged-branch loop of `prune_branches`
(source lines 87 to 91): strip the marker, and delete (safely, `-d`)
unless the name is empty, the current branch, `main`, or `master`. -/
def mergedStep (current line : String) : List Effect :=
  let branch := stripMarker line
  if branch ≠ "" ∧ branch ≠ current ∧ branch ≠ "main" ∧ branch ≠ "master" then
    [Effect.git ("git branch -d " ++ branch),
     Effect.print ("\x1b[92mDeleted merged branch: " ++ branch ++ "\x1b[0m")]
  else []

/-- One iteration of the gone-branch loop of `prune_branches`
(source lines 96 to 100): any line containing `[gone]` has its first
whitespace-separated token force-deleted (`-D`), with no exclusions. -/
def goneStep (line : String) : List Effect :=
  if occursIn "[gone]" line then
    [Effect.git ("git branch -D " ++ firstToken line),
     Effect.print ("\x1b[92mDeleted stale branch: " ++ firstToken line ++ "\x1b[0m")]
  else []

/-- The `prune_branches` flow (source lines 82 to 100). -/
def prune_branches (env : PruneEnv) : List Effect :=
  [Effect.print "\x1b[93mPruning local branches...\x1b[0m",
   Effect.git "git branch --merged",
   Effect.git "git branch --show-current"]
  ++ (env.mergedLines.map (mergedStep env.currentBranch)).flatten
  ++ [Effect.git "git fetch --prune",
      Effect.git "git branch -vv"]
  ++ (env.vvLines.map goneStep).flatten

/-- Parsed command-line arguments after argparse has applied defaults:
optional positional `pr_number`, `--owner`, `--repo`, and the `--prune`
flag (source lines 117 to 122). -/
structure Args where
  pr_number : Option String
  owner : String
  repo : String
  prune : Bool
deriving DecidableEq

/-- Command-line arguments as given, before defaults: `none` for an
omitted option. -/
structure RawArgs where
  pr_number : Option String
  owner : Option String
  repo : Option String
  prune : Bool
deriving DecidableEq

/-- Application of the argparse defaults `--owner blender` and
`--repo blender` (source lines 118 and 119). -/
def resolveArgs (r : RawArgs) : Args :=
  ⟨r.pr_number, r.owner.getD "blender", r.repo.getD "blender", r.prune⟩

/-- Python truthiness of `args.pr_number` (source line 126): `None` and
the empty string are falsy. -/
def truthy : Option String → Bool
  | none => false
  | some s => !(s == "")

/-- The argparse-generated usage text printed by `parser.print_help()`
(source line 129).  Its exact wording is generated by argparse and is not
part of the source; the claims only depend on it being a print and not a
git or HTTP action. -/
def helpText : String :=
  "usage: pr_tool.py [-h] [--owner OWNER] [--repo REPO] [--prune] [pr_number]"

/-- The `main` dispatch (source lines 124 to 129): `--prune` wins and
ignores `pr_number`; else a truthy `pr_number` runs the checkout flow;
else the help text is printed and `main` returns (process exit code 0). -/
def main (a : Args) (resp : FetchResult) (genv : GitEnv) (penv : PruneEnv) :
    List Effect × Outcome :=
  if a.prune then
    (prune_branches penv, Outcome.normal)
  else if truthy a.pr_number then
    checkout_pr (a.pr_number.getD "") a.owner a.repo resp genv
  else
    ([Effect.print helpText], Outcome.normal)

/-- Classifier: is this effect a process-runner (git) invocation? -/
def isGitEffect : Effect → Bool
  | Effect.git _ => true
  | _ => false

/-- Classifier: is this effect a printed line? -/
def isPrintEffect : Effect → Bool
  | Effect.print _ => true
  | _ => false

/-- Classifier: is this effect the HTTP GET? -/
def isHttpEffect : Effect → Bool
  | Effect.httpGet _ => true
  | _ => false

/-- Classifier: is this effect a force-deletion (`git branch -D ...`) of
some branch? -/
def isForceDelete (e : Effect) : Bool :=
  match e with
  | Effect.git s => strStarts "git branch -D " s
  | _ => false

/-! ## String toolkit lemmas -/

/-- A string is a leading segment of itself followed by anything. -/
theorem strStartsAppendSelf (p t : String) : strStarts p (p ++ t) = true := by
  show dataStarts p.data (p ++ t).data = true
  rw [String.data_append]
  induction p.data with
  | nil => rfl
  | cons c cs ih => simp [dataStarts, ih]

/-- Strings disagreeing on a `strStarts` test are distinct. -/
theorem neOfStrStartsNe (p : String) {a b : String}
    (h : strStarts p a ≠ strStarts p b) : a ≠ b :=
  fun hab => h (hab ▸ rfl)

/-- A string starting with `p` differs from any string that does not. -/
theorem neAppendLit (p a c : String) (h : strStarts p c = false) :
    p ++ a ≠ c :=
  neOfStrStartsNe p (by rw [strStartsAppendSelf, h]; decide)

/-- String concatenation cancels on the left. -/
theorem strAppendCancelLeft {p a b : String} (h : p ++ a = p ++ b) :
    a = b := by
  have h2 : (p ++ a).data = (p ++ b).data := congrArg String.data h
  rw [String.data_append, String.data_append] at h2
  have h3 := List.append_cancel_left h2
  cases a; cases b; exact congrArg String.mk h3

/-- A plain checkout of `base` is never the create-and-checkout command:
the latter is strictly longer. -/
theorem checkoutNeCreate (base lb : String) :
    "git checkout " ++ base ≠ "git checkout -b " ++ lb ++ " " ++ base := by
  intro h
  have h2 : ("git checkout " ++ base).length =
      ("git checkout -b " ++ lb ++ " " ++ base).length :=
    congrArg String.length h
  rw [String.length_append, String.length_append, String.length_append,
    String.length_append] at h2
  have e1 : ("git checkout " : String).length = 13 := rfl
  have e2 : ("git checkout -b " : String).length = 16 := rfl
  have e3 : (" " : String).length = 1 := rfl
  rw [e1, e2, e3] at h2
  omega

/-! ## Shape lemmas for the two prune loops -/

/-- `isForceDelete` holds for every `-D` command. -/
theorem isForceDeleteBD (t : String) :
    isForceDelete (Effect.git ("git branch -D " ++ t)) = true := rfl

/-- `isForceDelete` rejects every safe `-d` command. -/
theorem isForceDeleteBd (t : String) :
    isForceDelete (Effect.git ("git branch -d " ++ t)) = false := rfl

/-- `isForceDelete` rejects prints. -/
theorem isForceDeletePrint (m : String) :
    isForceDelete (Effect.print m) = false := rfl

/-- Every effect of the merged-branch loop is either a safe deletion of a
stripped branch name that passed the protection guard, or a print. -/
theorem memMergedPhase {cur : String} {lines : List String} {e : Effect}
    (h : e ∈ (lines.map (mergedStep cur)).flatten) :
    (∃ b, e = Effect.git ("git branch -d " ++ b) ∧
      b ≠ "" ∧ b ≠ cur ∧ b ≠ "main" ∧ b ≠ "master") ∨
    (∃ m, e = Effect.print m) := by
  induction lines with
  | nil => simp at h
  | cons l ls ih =>
    rw [List.map_cons, List.flatten_cons, List.mem_append] at h
    rcases h with h | h
    · rw [mergedStep] at h
      split at h
      · rcases List.mem_pair.mp h with h | h
        · exact Or.inl ⟨stripMarker l, h, by assumption⟩
        · exact Or.inr ⟨_, h⟩
      · simp at h
    · exact ih h

/-- Every effect of the gone-branch loop is either a force deletion or a
print. -/
theorem memGonePhase {lines : List String} {e : Effect}
    (h : e ∈ (lines.map goneStep).flatten) :
    (∃ t, e = Effect.git ("git branch -D " ++ t)) ∨
    (∃ m, e = Effect.print m) := by
  induction lines with
  | nil => simp at h
  | cons l ls ih =>
    rw [List.map_cons, List.flatten_cons, List.mem_append] at h
    rcases h with h | h
    · rw [goneStep] at h
      split at h
      · rcases List.mem_pair.mp h with h | h
        · exact Or.inl ⟨_, h⟩
        · exact Or.inr ⟨_, h⟩
      · simp at h
    · exact ih h

/-- The merged-branch loop issues no force deletions. -/
theorem filterForceMerged (cur : String) (lines : List String) :
    ((lines.map (mergedStep cur)).flatten).filter isForceDelete = [] := by
  induction lines with
  | nil => rfl
  | cons l ls ih =>
    rw [List.map_cons, List.flatten_cons, List.filter_append, ih,
      List.append_nil, mergedStep]
    split
    · simp [List.filter_cons, isForceDeleteBd, isForceDeletePrint]
    · rfl

/-- The force deletions of the gone-branch loop are exactly one `-D` of
the first token of each line containing `[gone]`. -/
theorem filterForceGone (lines : List String) :
    ((lines.map goneStep).flatten).filter isForceDelete =
      (lines.filter (fun l => occursIn "[gone]" l)).map
        (fun l => Effect.git ("git branch -D " ++ firstToken l)) := by
  induction lines with
  | nil => rfl
  | cons l ls ih =>
    rw [List.map_cons, List.flatten_cons, List.filter_append, ih,
      goneStep, List.filter_cons]
    by_cases hg : occursIn "[gone]" l
    · simp only [hg, if_true, List.filter_cons, isForceDeleteBD,
        isForceDeletePrint, List.map_cons]
      simp
    · simp only [hg, if_false, Bool.false_eq_true, List.nil_append]
      simp [hg]

/-! ## Claim theorems -/

/-- Prune environment in which the remote-tracking branch of `main` is
gone while `dev` is checked out. -/
def pruneEnvGone : PruneEnv := ⟨[], "dev", ["  main 0123abc [gone] msg"]⟩

/-- Claim C3, counterexample: the claim says `prune_branches` never
issues a deletion of `main`, but with an empty merged-branches listing,
current branch `dev`, and a `git branch -vv` listing whose `main` line
contains `[gone]`, the gone-branch loop issues the force deletion
`git branch -D main`. -/
theorem prune_deletes_main_cex :
    Effect.git "git branch -D main" ∈ prune_branches pruneEnvGone ∧
    pruneEnvGone.currentBranch = "dev" ∧ pruneEnvGone.mergedLines = [] := by
  refine ⟨by decide, by decide, by decide⟩

/-- Claim C3 (amended): in the merged-branches loop, `prune_branches`
never issues a safe deletion (`git branch -d`) of the current branch, of
`main`, or of `master`, for every merged-branches listing and current
branch name; the gone-branch loop, however, may force-delete `main` or
`master` when their verbose listing line contains `[gone]`. -/
theorem merged_phase_never_deletes_protected (env : PruneEnv) (b : String)
    (hb : b = env.currentBranch ∨ b = "main" ∨ b = "master") :
    Effect.git ("git branch -d " ++ b) ∉ prune_branches env := by
  intro hmem
  rw [prune_branches] at hmem
  rcases List.mem_append.mp hmem with h | h
  · rcases List.mem_append.mp h with h | h
    · rcases List.mem_append.mp h with h | h
      · rcases List.mem_cons.mp h with h | h
        · simp at h
        rcases List.mem_pair.mp h with h | h
        · simp only [Effect.git.injEq] at h
          exact neAppendLit "git branch -d " b "git branch --merged" rfl h
        · simp only [Effect.git.injEq] at h
          exact neAppendLit "git branch -d " b "git branch --show-current" rfl h
      · rcases memMergedPhase h with ⟨b2, he, hne, hnc, hnm, hnM⟩ | ⟨m, he⟩
        · simp only [Effect.git.injEq] at he
          have hbb := strAppendCancelLeft he
          subst hbb
          rcases hb with rfl | rfl | rfl
          · exact hnc rfl
          · exact hnm rfl
          · exact hnM rfl
        · simp at he
    · rcases List.mem_pair.mp h with h | h
      · simp only [Effect.git.injEq] at h
        exact neAppendLit "git branch -d " b "git fetch --prune" rfl h
      · simp only [Effect.git.injEq] at h
        exact neAppendLit "git branch -d " b "git branch -vv" rfl h
  · rcases memGonePhase h with ⟨t, he⟩ | ⟨m, he⟩
    · simp only [Effect.git.injEq] at he
      exact neAppendLit "git branch -d " b ("git branch -D " ++ t) rfl he
    · simp at he

/-- Prune environment whose merged-branches listing contains the current
branch (`dev`, marked), `main`, `master`, and an ordinary branch. -/
def pruneEnvProtected : PruneEnv :=
  ⟨["  main", "  master", "* dev", "  feat"], "dev", []⟩

/-- Witness for the amended claim C3 at a concrete environment. -/
theorem merged_phase_never_deletes_protected_witness :
    Effect.git ("git branch -d " ++ "main") ∉ prune_branches pruneEnvProtected :=
  merged_phase_never_deletes_protected pruneEnvProtected "main"
    (Or.inr (Or.inl rfl))

/-- Claim C4: over the whole of `prune_branches`, the force deletions
(`git branch -D`) are exactly one per verbose-listing line containing the
literal `[gone]`, deleting that line's first whitespace-separated token;
on the spec's example line the extracted token is `old-feature`. -/
theorem gone_force_deletes_exactly (env : PruneEnv) :
    (prune_branches env).filter isForceDelete =
      (env.vvLines.filter (fun l => occursIn "[gone]" l)).map
        (fun l => Effect.git ("git branch -D " ++ firstToken l)) ∧
    firstToken "  old-feature  0123abc [gone] commit msg" = "old-feature" ∧
    occursIn "[gone]" "  old-feature  0123abc [gone] commit msg" = true := by
  refine ⟨?_, by decide, by decide⟩
  rw [prune_branches, List.filter_append, List.filter_append,
    List.filter_append, filterForceMerged, filterForceGone]
  have h1 : ([Effect.print "\x1b[93mPruning local branches...\x1b[0m",
      Effect.git "git branch --merged",
      Effect.git "git branch --show-current"]).filter isForceDelete = [] := by
    decide
  have h2 : ([Effect.git "git fetch --prune",
      Effect.git "git branch -vv"]).filter isForceDelete = [] := by decide
  rw [h1, h2]
  simp

/-- Prune environment in which the current branch's own verbose line is
marked `[gone]`: its first token is the literal `*` marker. -/
def pruneEnvStar : PruneEnv := ⟨[], "dev", ["* dev 0123abc [gone] msg"]⟩

/-- Claim C10: the gone-branch loop force-deletes the first token of
every `[gone]` line of the verbose listing unconditionally, with no
exclusion of `main`, `master`, or the current branch; on the current
branch's own line (prefixed `* `) the first token is `*`, so the issued
command is `git branch -D *`. -/
theorem gone_phase_unconditional (env : PruneEnv) (l : String)
    (hl : l ∈ env.vvLines) (hg : occursIn "[gone]" l = true) :
    Effect.git ("git branch -D " ++ firstToken l) ∈ prune_branches env ∧
    firstToken "* dev 0123abc [gone] msg" = "*" ∧
    "git branch -D " ++ firstToken "* dev 0123abc [gone] msg" =
      "git branch -D *" := by
  refine ⟨?_, by decide, by decide⟩
  rw [prune_branches]
  refine List.mem_append.mpr (Or.inr ?_)
  refine List.mem_flatten.mpr ⟨goneStep l, List.mem_map_of_mem _ hl, ?_⟩
  simp [goneStep, hg]

/-- Witness for claim C10 at a concrete environment. -/
theorem gone_phase_unconditional_witness :
    Effect.git ("git branch -D " ++ firstToken "* dev 0123abc [gone] msg") ∈
      prune_branches pruneEnvStar ∧
    firstToken "* dev 0123abc [gone] msg" = "*" ∧
    "git branch -D " ++ firstToken "* dev 0123abc [gone] msg" =
      "git branch -D *" :=
  gone_phase_unconditional pruneEnvStar "* dev 0123abc [gone] msg"
    (by decide) (by decide)

/-! ## Command-string discrimination lemmas for the checkout flow -/

/-- A force-delete command is not the show-current query. -/
theorem delNeShow (lb : String) :
    "git branch -D " ++ lb ≠ "git branch --show-current" :=
  neAppendLit "git branch -D " lb _ rfl

/-- A force-delete command is not a plain checkout. -/
theorem delNeCo (lb b : String) :
    "git branch -D " ++ lb ≠ "git checkout " ++ b :=
  neAppendLit "git branch -D " lb _ rfl

/-- A force-delete command is not the branch-listing query. -/
theorem delNeBranch (lb : String) :
    "git branch -D " ++ lb ≠ "git branch" :=
  neAppendLit "git branch -D " lb _ rfl

/-- A force-delete command is not the create-and-checkout command. -/
theorem delNeCreate (lb l2 b : String) :
    "git branch -D " ++ lb ≠ "git checkout -b " ++ l2 ++ " " ++ b :=
  neAppendLit "git branch -D " lb _ rfl

/-- A force-delete command is not the pull command. -/
theorem delNePull (lb x y : String) :
    "git branch -D " ++ lb ≠
      "git pull --no-rebase --ff --no-edit --commit https://projects.blender.org/"
        ++ x ++ " " ++ y :=
  neAppendLit "git branch -D " lb _ rfl

/-- A plain checkout command is not the show-current query. -/
theorem coNeShow (b : String) :
    "git checkout " ++ b ≠ "git branch --show-current" :=
  neAppendLit "git checkout " b _ rfl

/-- A plain checkout command is not the branch-listing query. -/
theorem coNeBranch (b : String) :
    "git checkout " ++ b ≠ "git branch" :=
  neAppendLit "git checkout " b _ rfl

/-- A plain checkout command is not a force-delete command. -/
theorem coNeDel (b lb : String) :
    "git checkout " ++ b ≠ "git branch -D " ++ lb :=
  neAppendLit "git checkout " b _ rfl

/-- A plain checkout command is not the pull command. -/
theorem coNePull (b x y : String) :
    "git checkout " ++ b ≠
      "git pull --no-rebase --ff --no-edit --commit https://projects.blender.org/"
        ++ x ++ " " ++ y :=
  neAppendLit "git checkout " b _ rfl

/-- Unfolding of `checkout_pr` on an open PR whose field extraction
succeeds. -/
theorem checkoutOpenEq (n o r : String) (pr : PRData) (env : GitEnv)
    (f : OpenFields) (hm : pr.merged.getD false = false)
    (hs : pr.state ≠ some "closed") (hof : openFields pr = Except.ok f) :
    checkout_pr n o r (FetchResult.ok pr) env =
      (Effect.httpGet (apiUrl o r n) :: openTrace n f env, Outcome.normal) := by
  simp [checkout_pr, checkoutWithData, hm, hs, hof]

/-- Claim C1: for every PR record with truthy `merged`, and for every
record with `state == "closed"` and falsy `merged`, `checkout_pr` issues
no git command (no process-runner invocation) and returns normally after
printing informational output. -/
theorem merged_or_closed_is_noop (n o r : String) (pr : PRData) (env : GitEnv)
    (h : pr.merged.getD false = true ∨
      (pr.state = some "closed" ∧ pr.merged.getD false = false)) :
    (checkout_pr n o r (FetchResult.ok pr) env).1.filter isGitEffect = [] ∧
    (checkout_pr n o r (FetchResult.ok pr) env).2 = Outcome.normal ∧
    (checkout_pr n o r (FetchResult.ok pr) env).1.filter isPrintEffect ≠ [] := by
  rcases h with hm | ⟨hs, hm⟩
  · refine ⟨?_, ?_, ?_⟩ <;>
      simp [checkout_pr, checkoutWithData, hm, isGitEffect, isPrintEffect]
  · refine ⟨?_, ?_, ?_⟩ <;>
      simp [checkout_pr, checkoutWithData, hm, hs, isGitEffect, isPrintEffect]

/-- A merged PR record. -/
def prMerged : PRData :=
  ⟨some true, some "2024-01-01T00:00:00Z", some ⟨some "Ada"⟩, some "closed",
   some "Fix crash", some ⟨some ⟨some "alice/blender", some ⟨some "alice"⟩⟩,
   some "feature-x"⟩, some ⟨some "main"⟩⟩

/-- A git environment with `main` checked out and two local branches. -/
def genv0 : GitEnv := ⟨"main", ["* main", "  dev"]⟩

/-- Witness for claim C1: a concrete merged PR is a no-op. -/
theorem merged_or_closed_is_noop_witness :
    (checkout_pr "42" "blender" "blender" (FetchResult.ok prMerged) genv0).1.filter
        isGitEffect = [] ∧
    (checkout_pr "42" "blender" "blender" (FetchResult.ok prMerged) genv0).2 =
        Outcome.normal ∧
    (checkout_pr "42" "blender" "blender" (FetchResult.ok prMerged) genv0).1.filter
        isPrintEffect ≠ [] :=
  merged_or_closed_is_noop "42" "blender" "blender" prMerged genv0 (Or.inl rfl)

/-- Claim C5: for every open PR whose fields extract successfully, the
local branch name is exactly `PR/` then the PR number, `/`, the author
(`head.repo.owner.username`), `-`, and the source branch (`head.ref`);
the create-and-checkout command uses it, and for author `alice`, source
branch `feature-x`, PR number `42` it equals `PR/42/alice-feature-x`. -/
theorem local_branch_name_format (n o r : String) (pr : PRData)
    (env : GitEnv) (f : OpenFields) (hm : pr.merged.getD false = false)
    (hs : pr.state ≠ some "closed") (hof : openFields pr = Except.ok f) :
    localBranchName n f.author f.branch =
      "PR/" ++ n ++ "/" ++ f.author ++ "-" ++ f.branch ∧
    Effect.git ("git checkout -b " ++ localBranchName n f.author f.branch
        ++ " " ++ f.base_branch) ∈
      (checkout_pr n o r (FetchResult.ok pr) env).1 ∧
    localBranchName "42" "alice" "feature-x" = "PR/42/alice-feature-x" := by
  refine ⟨rfl, ?_, by decide⟩
  rw [checkoutOpenEq n o r pr env f hm hs hof]
  simp only [openTrace, List.mem_cons, List.mem_append]
  by_cases h1 : env.currentBranch ≠ f.base_branch <;>
    by_cases h2 : localBranchName n f.author f.branch ∈
      env.branchLines.map stripMarker <;>
    simp [h1, h2]

/-- An open PR record with every consumed field present. -/
def prOpen : PRData :=
  ⟨some false, none, none, some "open", some "Fix crash",
   some ⟨some ⟨some "alice/blender", some ⟨some "alice"⟩⟩, some "feature-x"⟩,
   some ⟨some "main"⟩⟩

/-- The extracted fields of `prOpen`. -/
def openF : OpenFields :=
  ⟨"alice/blender", "alice", "feature-x", "main", "Fix crash"⟩

/-- Witness for claim C5 at the spec's concrete example. -/
theorem local_branch_name_format_witness :
    localBranchName "42" openF.author openF.branch =
      "PR/" ++ "42" ++ "/" ++ openF.author ++ "-" ++ openF.branch ∧
    Effect.git ("git checkout -b " ++ localBranchName "42" openF.author
        openF.branch ++ " " ++ openF.base_branch) ∈
      (checkout_pr "42" "blender" "blender" (FetchResult.ok prOpen) genv0).1 ∧
    localBranchName "42" "alice" "feature-x" = "PR/42/alice-feature-x" :=
  local_branch_name_format "42" "blender" "blender" prOpen genv0 openF rfl
    (by decide) rfl

/-- Claim C6: on the open path, if the local branch name occurs in the
local-branch listing (each line stripped of its current-branch marker), a
force-delete of it is issued strictly before the create-and-checkout
command; if it does not occur, no such delete is issued and the
create-and-checkout command is still issued. -/
theorem refresh_delete_ordering (n o r : String) (pr : PRData) (env : GitEnv)
    (f : OpenFields) (hm : pr.merged.getD false = false)
    (hs : pr.state ≠ some "closed") (hof : openFields pr = Except.ok f) :
    (localBranchName n f.author f.branch ∈ env.branchLines.map stripMarker →
      ∃ xs ys zs, (checkout_pr n o r (FetchResult.ok pr) env).1 =
        xs ++ Effect.git ("git branch -D " ++ localBranchName n f.author f.branch) ::
          (ys ++ Effect.git ("git checkout -b " ++ localBranchName n f.author f.branch
            ++ " " ++ f.base_branch) :: zs)) ∧
    (localBranchName n f.author f.branch ∉ env.branchLines.map stripMarker →
      Effect.git ("git branch -D " ++ localBranchName n f.author f.branch) ∉
        (checkout_pr n o r (FetchResult.ok pr) env).1 ∧
      Effect.git ("git checkout -b " ++ localBranchName n f.author f.branch
        ++ " " ++ f.base_branch) ∈
        (checkout_pr n o r (FetchResult.ok pr) env).1) := by
  rw [checkoutOpenEq n o r pr env f hm hs hof]
  constructor
  · intro hmem
    by_cases hcb : env.currentBranch = f.base_branch
    · refine ⟨[Effect.httpGet (apiUrl o r n),
        Effect.print ("\x1b[95mPulling PR #" ++ n ++ ": " ++ f.title ++ "\x1b[0m"),
        Effect.print ("\x1b[90mIncoming branch: " ++ f.pr_repo ++ "\x1b[0m"),
        Effect.print ("\x1b[90mBase branch   : " ++ f.base_branch ++ "\x1b[0m"),
        Effect.print ("\x1b[90mLocal branch  : " ++ localBranchName n f.author f.branch ++ "\x1b[0m"),
        Effect.git "git branch --show-current",
        Effect.git "git branch",
        Effect.print ("\x1b[95mBranch " ++ localBranchName n f.author f.branch ++ " exists, refreshing it.\x1b[0m")],
        [], ?_, ?_⟩
      · exact [Effect.git ("git pull --no-rebase --ff --no-edit --commit https://projects.blender.org/"
          ++ f.pr_repo ++ " " ++ f.branch),
          Effect.print ("\x1b[95mBranch " ++ localBranchName n f.author f.branch ++ " is ready for use.\x1b[0m"),
          Effect.print ("\x1b[94mPulled PR #" ++ n ++ ": " ++ f.title ++ "\x1b[0m")]
      · simp [openTrace, hmem, hcb]
    · refine ⟨[Effect.httpGet (apiUrl o r n),
        Effect.print ("\x1b[95mPulling PR #" ++ n ++ ": " ++ f.title ++ "\x1b[0m"),
        Effect.print ("\x1b[90mIncoming branch: " ++ f.pr_repo ++ "\x1b[0m"),
        Effect.print ("\x1b[90mBase branch   : " ++ f.base_branch ++ "\x1b[0m"),
        Effect.print ("\x1b[90mLocal branch  : " ++ localBranchName n f.author f.branch ++ "\x1b[0m"),
        Effect.git "git branch --show-current",
        Effect.git ("git checkout " ++ f.base_branch),
        Effect.git "git branch",
        Effect.print ("\x1b[95mBranch " ++ localBranchName n f.author f.branch ++ " exists, refreshing it.\x1b[0m")],
        [], ?_, ?_⟩
      · exact [Effect.git ("git pull --no-rebase --ff --no-edit --commit https://projects.blender.org/"
          ++ f.pr_repo ++ " " ++ f.branch),
          Effect.print ("\x1b[95mBranch " ++ localBranchName n f.author f.branch ++ " is ready for use.\x1b[0m"),
          Effect.print ("\x1b[94mPulled PR #" ++ n ++ ": " ++ f.title ++ "\x1b[0m")]
      · simp [openTrace, hmem, hcb]
  · intro hnm
    constructor
    · by_cases hcb : env.currentBranch = f.base_branch <;>
        simp [openTrace, hnm, hcb, delNeShow, delNeCo, delNeBranch,
          delNeCreate, delNePull]
    · by_cases hcb : env.currentBranch = f.base_branch <;>
        simp [openTrace, hnm, hcb]

/-- A git environment in which the derived local branch for PR 42 by
`alice` from `feature-x` already exists. -/
def genvWithLb : GitEnv := ⟨"main", ["* main", "  PR/42/alice-feature-x"]⟩

/-- Witness for claim C6: with the local branch present, the delete
precedes the create; a concrete decomposition exists. -/
theorem refresh_delete_ordering_witness :
    ∃ xs ys zs,
      (checkout_pr "42" "blender" "blender" (FetchResult.ok prOpen) genvWithLb).1 =
        xs ++ Effect.git ("git branch -D " ++ localBranchName "42" openF.author openF.branch) ::
          (ys ++ Effect.git ("git checkout -b " ++ localBranchName "42" openF.author openF.branch
            ++ " " ++ openF.base_branch) :: zs) :=
  (refresh_delete_ordering "42" "blender" "blender" prOpen genvWithLb openF
    rfl (by decide) rfl).1 (by decide)

/-- Claim C7: on the open path, if the (stripped) output of
`git branch --show-current` equals the base branch, no checkout-to-base
command is issued; if it differs, exactly one checkout of the base branch
is issued, before the branch creation. -/
theorem base_checkout_conditional (n o r : String) (pr : PRData) (env : GitEnv)
    (f : OpenFields) (hm : pr.merged.getD false = false)
    (hs : pr.state ≠ some "closed") (hof : openFields pr = Except.ok f) :
    (env.currentBranch = f.base_branch →
      Effect.git ("git checkout " ++ f.base_branch) ∉
        (checkout_pr n o r (FetchResult.ok pr) env).1) ∧
    (env.currentBranch ≠ f.base_branch →
      ∃ xs zs, (checkout_pr n o r (FetchResult.ok pr) env).1 =
          xs ++ Effect.git ("git checkout " ++ f.base_branch) :: zs ∧
        Effect.git ("git checkout " ++ f.base_branch) ∉ xs ∧
        Effect.git ("git checkout " ++ f.base_branch) ∉ zs ∧
        Effect.git ("git checkout -b " ++ localBranchName n f.author f.branch
          ++ " " ++ f.base_branch) ∈ zs) := by
  rw [checkoutOpenEq n o r pr env f hm hs hof]
  constructor
  · intro hcb
    by_cases h2 : localBranchName n f.author f.branch ∈
        env.branchLines.map stripMarker <;>
      simp [openTrace, hcb, h2, coNeShow, coNeBranch, coNeDel, coNePull,
        checkoutNeCreate]
  · intro hcb
    refine ⟨[Effect.httpGet (apiUrl o r n),
      Effect.print ("\x1b[95mPulling PR #" ++ n ++ ": " ++ f.title ++ "\x1b[0m"),
      Effect.print ("\x1b[90mIncoming branch: " ++ f.pr_repo ++ "\x1b[0m"),
      Effect.print ("\x1b[90mBase branch   : " ++ f.base_branch ++ "\x1b[0m"),
      Effect.print ("\x1b[90mLocal branch  : " ++ localBranchName n f.author f.branch ++ "\x1b[0m"),
      Effect.git "git branch --show-current"],
      Effect.git "git branch" ::
        ((if localBranchName n f.author f.branch ∈ env.branchLines.map stripMarker then
          [Effect.print ("\x1b[95mBranch " ++ localBranchName n f.author f.branch ++ " exists, refreshing it.\x1b[0m"),
           Effect.git ("git branch -D " ++ localBranchName n f.author f.branch)]
         else
          [Effect.print ("\x1b[96mBranch " ++ localBranchName n f.author f.branch ++ " does not exist.\x1b[0m")])
        ++ [Effect.git ("git checkout -b " ++ localBranchName n f.author f.branch ++ " " ++ f.base_branch),
            Effect.git ("git pull --no-rebase --ff --no-edit --commit https://projects.blender.org/"
              ++ f.pr_repo ++ " " ++ f.branch),
            Effect.print ("\x1b[95mBranch " ++ localBranchName n f.author f.branch ++ " is ready for use.\x1b[0m"),
            Effect.print ("\x1b[94mPulled PR #" ++ n ++ ": " ++ f.title ++ "\x1b[0m")]),
      ?_, ?_, ?_, ?_⟩
    · simp [openTrace, hcb]
    · simp [coNeShow]
    · by_cases h2 : localBranchName n f.author f.branch ∈
          env.branchLines.map stripMarker <;>
        simp [h2, coNeBranch, coNeDel, coNePull, checkoutNeCreate]
    · by_cases h2 : localBranchName n f.author f.branch ∈
          env.branchLines.map stripMarker <;>
        simp [h2]

/-- A git environment with `dev` checked out. -/
def genvDev : GitEnv := ⟨"dev", ["* dev", "  main"]⟩

/-- Witness for claim C7: with `main` checked out no checkout-to-base is
issued, and with `dev` checked out the decomposition exists. -/
theorem base_checkout_conditional_witness :
    (Effect.git ("git checkout " ++ openF.base_branch) ∉
      (checkout_pr "42" "blender" "blender" (FetchResult.ok prOpen) genv0).1) ∧
    (∃ xs zs,
      (checkout_pr "42" "blender" "blender" (FetchResult.ok prOpen) genvDev).1 =
          xs ++ Effect.git ("git checkout " ++ openF.base_branch) :: zs ∧
        Effect.git ("git checkout " ++ openF.base_branch) ∉ xs ∧
        Effect.git ("git checkout " ++ openF.base_branch) ∉ zs ∧
        Effect.git ("git checkout -b " ++ localBranchName "42" openF.author openF.branch
          ++ " " ++ openF.base_branch) ∈ zs) :=
  ⟨(base_checkout_conditional "42" "blender" "blender" prOpen genv0 openF
      rfl (by decide) rfl).1 rfl,
   (base_checkout_conditional "42" "blender" "blender" prOpen genvDev openF
      rfl (by decide) rfl).2 (by decide)⟩

/-- An open PR record whose `title` key is absent; all other consumed
fields are present. -/
def prNoTitle : PRData :=
  ⟨some false, none, none, some "open", none,
   some ⟨some ⟨some "alice/blender", some ⟨some "alice"⟩⟩, some "feature-x"⟩,
   some ⟨some "main"⟩⟩

/-- Claim C9, counterexample: the claim says `checkout_pr` tolerates the
absence of any optional field including `title`, but on an open PR whose
`title` key is absent the bracket access `pr_data['title']` raises
`KeyError` and the flow aborts instead of returning normally. -/
theorem missing_title_fails_cex :
    (checkout_pr "7" "blender" "blender" (FetchResult.ok prNoTitle) genv0).2 =
      Outcome.uncaught "KeyError: title" ∧
    (checkout_pr "7" "blender" "blender" (FetchResult.ok prNoTitle) genv0).2 ≠
      Outcome.normal := by
  refine ⟨by decide, by decide⟩

/-- Claim C9 (amended): on the merged path, the absence of `merged_at`
and `merged_by` is tolerated and surfaces as `None` in the printed
messages, with a normal return; but on the open path the fields `title`,
`head.*` and `base.*` are read with bracket access, so the absence of any
of them raises `KeyError`, aborting the flow before any git command. -/
theorem optional_fields_amended (n o r : String) (pr : PRData) (env : GitEnv) :
    (pr.merged.getD false = true → pr.merged_at = none → pr.merged_by = none →
      Effect.print "Merged at: None" ∈
        (checkout_pr n o r (FetchResult.ok pr) env).1 ∧
      Effect.print "Merged by: None" ∈
        (checkout_pr n o r (FetchResult.ok pr) env).1 ∧
      (checkout_pr n o r (FetchResult.ok pr) env).2 = Outcome.normal) ∧
    (∀ k, pr.merged.getD false = false → pr.state ≠ some "closed" →
      openFields pr = Except.error k →
      checkout_pr n o r (FetchResult.ok pr) env =
        ([Effect.httpGet (apiUrl o r n)],
         Outcome.uncaught ("KeyError: " ++ k))) := by
  constructor
  · intro hma hat hby
    refine ⟨?_, ?_, ?_⟩ <;>
      simp [checkout_pr, checkoutWithData, hma, hat, hby, pyOptStr]
  · intro k hm hst hk
    simp [checkout_pr, checkoutWithData, hm, hst, hk]

/-- A merged PR record in which every other consumed field is absent. -/
def prBare : PRData := ⟨some true, none, none, none, none, none, none⟩

/-- Witness for the amended claim C9 at concrete records: the bare merged
record prints `None` placeholders, and the record missing `title` aborts
with a `KeyError`. -/
theorem optional_fields_amended_witness :
    (Effect.print "Merged at: None" ∈
      (checkout_pr "9" "blender" "blender" (FetchResult.ok prBare) genv0).1) ∧
    checkout_pr "7" "blender" "blender" (FetchResult.ok prNoTitle) genv0 =
      ([Effect.httpGet (apiUrl "blender" "blender" "7")],
       Outcome.uncaught ("KeyError: " ++ "title")) :=
  ⟨((optional_fields_amended "9" "blender" "blender" prBare genv0).1
      rfl rfl rfl).1,
   (optional_fields_amended "7" "blender" "blender" prNoTitle genv0).2
      "title" rfl (by decide) rfl⟩

/-- Claim C2, counterexample: the claim says every HTTP-level failure,
including a connection failure, leads to the attention-drawing error
print and `sys.exit(1)`; but a connection-level failure raises `URLError`,
which the `except HTTPError` clause does not catch, so nothing at all is
printed by the tool and the termination is an uncaught exception rather
than the `sys.exit(1)` path. -/
theorem fetch_conn_failure_cex :
    (checkout_pr "1" "blender" "blender"
        (FetchResult.connError "Connection refused") genv0).1.filter
      isPrintEffect = [] ∧
    (checkout_pr "1" "blender" "blender"
        (FetchResult.connError "Connection refused") genv0).2 ≠
      Outcome.exited 1 := by
  refine ⟨rfl, by decide⟩

/-- Claim C2 (amended): a non-2xx HTTP response (`HTTPError`) is caught:
the attention-drawing error message is printed and the process exits with
code 1; a connection-level failure propagates as an uncaught exception
(abnormal termination without the tool's own error print); in both cases
no git command is ever issued. -/
theorem fetch_failure_behaviour (n o r e : String) (env : GitEnv) :
    checkout_pr n o r (FetchResult.httpError e) env =
      ([Effect.httpGet (apiUrl o r n),
        Effect.print ("\x1b[91mError fetching PR data: " ++ e ++ "\x1b[0m")],
       Outcome.exited 1) ∧
    checkout_pr n o r (FetchResult.connError e) env =
      ([Effect.httpGet (apiUrl o r n)], Outcome.uncaught e) ∧
    (checkout_pr n o r (FetchResult.httpError e) env).1.filter
      isGitEffect = [] ∧
    (checkout_pr n o r (FetchResult.connError e) env).1.filter
      isGitEffect = [] :=
  ⟨rfl, rfl, rfl, rfl⟩

/-- Arguments with an explicitly empty `pr_number`, `--prune` unset. -/
def argsEmptyPr : Args := ⟨some "", "blender", "blender", false⟩

/-- An empty prune environment. -/
def penv0 : PruneEnv := ⟨[], "main", []⟩

/-- Claim C8, counterexample: the claim says that when `pr_number` is
given (and `--prune` unset) the checkout flow runs; but `pr_number` given
as the empty string is falsy in Python, so `main` prints the help text
and returns with no git or HTTP invocation instead of running the
checkout flow. -/
theorem main_empty_pr_number_cex :
    main argsEmptyPr (FetchResult.connError "net") genv0 penv0 =
      ([Effect.print helpText], Outcome.normal) ∧
    argsEmptyPr.pr_number = some "" ∧
    argsEmptyPr.prune = false ∧
    (main argsEmptyPr (FetchResult.connError "net") genv0 penv0).1.filter
      isHttpEffect = [] ∧
    (main argsEmptyPr (FetchResult.connError "net") genv0 penv0).1.filter
      isGitEffect = [] := by
  refine ⟨rfl, rfl, rfl, rfl, rfl⟩

/-- Claim C8 (amended): if `--prune` is set the prune flow runs and
`pr_number` is ignored; otherwise, if `pr_number` is given and non-empty,
the checkout flow runs with the given owner and repo (argparse defaults
`blender`/`blender`); otherwise — `pr_number` absent or empty — the help
text is printed and the process exits with code 0 having made no git or
HTTP invocation. -/
theorem main_dispatch_amended (a : Args) (resp : FetchResult) (genv : GitEnv)
    (penv : PruneEnv) :
    (a.prune = true →
      main a resp genv penv = (prune_branches penv, Outcome.normal)) ∧
    (a.prune = false → ∀ s, a.pr_number = some s → s ≠ "" →
      main a resp genv penv = checkout_pr s a.owner a.repo resp genv) ∧
    (a.prune = false → truthy a.pr_number = false →
      main a resp genv penv = ([Effect.print helpText], Outcome.normal) ∧
      (main a resp genv penv).1.filter isGitEffect = [] ∧
      (main a resp genv penv).1.filter isHttpEffect = []) ∧
    (∀ pn pf, resolveArgs ⟨pn, none, none, pf⟩ =
      ⟨pn, "blender", "blender", pf⟩) := by
  refine ⟨?_, ?_, ?_, ?_⟩
  · intro hp
    simp [main, hp]
  · intro hp s hpn hne
    simp [main, hp, hpn, truthy, hne]
  · intro hp ht
    have hmain : main a resp genv penv =
        ([Effect.print helpText], Outcome.normal) := by
      simp [main, hp, ht]
    exact ⟨hmain, by rw [hmain]; rfl, by rw [hmain]; rfl⟩
  · intro pn pf
    rfl

/-- Witness for the amended claim C8 at concrete argument vectors,
exercising the prune, checkout, and help branches. -/
theorem main_dispatch_amended_witness :
    main ⟨none, "blender", "blender", true⟩ (FetchResult.connError "net")
        genv0 penv0 = (prune_branches penv0, Outcome.normal) ∧
    main ⟨some "42", "blender", "blender", false⟩ (FetchResult.ok prOpen)
        genv0 penv0 =
      checkout_pr "42" "blender" "blender" (FetchResult.ok prOpen) genv0 ∧
    main ⟨none, "blender", "blender", false⟩ (FetchResult.connError "net")
        genv0 penv0 = ([Effect.print helpText], Outcome.normal) :=
  ⟨(main_dispatch_amended ⟨none, "blender", "blender", true⟩
      (FetchResult.connError "net") genv0 penv0).1 rfl,
   (main_dispatch_amended ⟨some "42", "blender", "blender", false⟩
      (FetchResult.ok prOpen) genv0 penv0).2.1 rfl "42" rfl (by decide),
   ((main_dispatch_amended ⟨none, "blender", "blender", false⟩
      (FetchResult.connError "net") genv0 penv0).2.2.1 rfl rfl).1⟩

end PrTool
